import Mathlib

/-!
Shallow embedding of `test-espn-api-library.py`, a diagnostic script that
probes the external `espn_api` library for league, draft and roster data.

External objects returned by the library are modelled as records whose
attributes are `Option`-valued: `none` models an absent attribute (the
`getattr(x, a, default)` / `hasattr(x, a)` pattern of the source).  A
collection attribute such as `draft.picks` or `team.roster` is
`Option (Option (List _))`: the outer `Option` is attribute presence
(`hasattr`), the inner one distinguishes a `None` value from an actual
list (whose emptiness is Python falsity).  Printing is modelled as the
list of lines written to standard output; the `League(...)` constructor,
the one genuinely fallible external call, is an `Except String LeagueObj`
(an `error` is a raised exception carrying its message).  The process is
`script`, returning the printed lines and the exit code.
-/

namespace EspnTest

/-- A draft pick object; every attribute read by the script is optional. -/
structure Pick where
  player_name : Option String
  team_id : Option String
  round_num : Option String
  pick_num : Option String
deriving Repr, DecidableEq

/-- A roster player object. -/
structure Player where
  name : Option String
  position : Option String
deriving Repr, DecidableEq

/-- A team object.  `roster`: outer `Option` is `hasattr(team, "roster")`,
inner `Option` distinguishes a `None` roster from a list. -/
structure Team where
  team_id : Option String
  team_name : Option String
  owner : Option String
  roster : Option (Option (List Player))
deriving Repr, DecidableEq

/-- The draft object.  `typeName` stands for `type(draft)` as printed;
`dirAttrs` stands for `dir(draft)`. -/
structure Draft where
  picks : Option (Option (List Pick))
  typeName : String
  dirAttrs : List String
deriving Repr, DecidableEq

/-- The league handle returned by `League(league_id, year)`.
`dirAttrs` stands for `dir(league)`. -/
structure LeagueObj where
  name : Option String
  teams : Option (List Team)
  current_week : Option String
  draft : Option Draft
  dirAttrs : List String
deriving Repr, DecidableEq

/-- The hardcoded league identifier (line 18 of the source). -/
def league_id : Nat := 449753582

/-- The hardcoded season year (line 19 of the source). -/
def year : Nat := 2025

/-- `"=" * 50`, the separator line. -/
def eqLine : String := String.mk (List.replicate 50 '=')

/-- `getattr(league, "name", "Unknown Name")`. -/
def leagueName (l : LeagueObj) : String := l.name.getD "Unknown Name"

/-- `getattr(league, "teams", [])`. -/
def leagueTeams (l : LeagueObj) : List Team := l.teams.getD []

/-- `getattr(league, "current_week", "Unknown")` (rendered form). -/
def leagueWeek (l : LeagueObj) : String := l.current_week.getD "Unknown"

/-- `getattr(pick, "player_name", "Unknown Player")`. -/
def pickPlayerName (p : Pick) : String := p.player_name.getD "Unknown Player"

/-- `getattr(pick, "team_id", "Unknown Team")` (rendered form). -/
def pickTeamId (p : Pick) : String := p.team_id.getD "Unknown Team"

/-- `getattr(pick, "round_num", "Unknown Round")` (rendered form). -/
def pickRoundNum (p : Pick) : String := p.round_num.getD "Unknown Round"

/-- `getattr(pick, "pick_num", "Unknown Pick")` (rendered form). -/
def pickPickNum (p : Pick) : String := p.pick_num.getD "Unknown Pick"

/-- `getattr(team, "team_id", "Unknown")` (rendered form). -/
def teamId (t : Team) : String := t.team_id.getD "Unknown"

/-- `getattr(team, "team_name", "Unknown")`. -/
def teamName (t : Team) : String := t.team_name.getD "Unknown"

/-- `getattr(team, "owner", "Unknown")`. -/
def teamOwner (t : Team) : String := t.owner.getD "Unknown"

/-- `getattr(player, "name", "Unknown Player")`. -/
def playerName (p : Player) : String := p.name.getD "Unknown Player"

/-- `getattr(player, "position", "Unknown Position")`. -/
def playerPosition (p : Player) : String := p.position.getD "Unknown Position"

/-- `test_league_access` (source lines 13-34): prints the banner, attempts
`League(league_id, year)` inside the try block; on success prints name,
team count and current week and returns the handle, on any raised
exception prints the failure message and returns `None`. -/
def test_league_access (ctor : Except String LeagueObj) :
    List String × Option LeagueObj :=
  let pre := ["\n🔍 TESTING LEAGUE ACCESS", eqLine,
    "📊 Connecting to League " ++ toString league_id ++
      " (Year " ++ toString year ++ ")..."]
  match ctor with
  | Except.error e =>
      (pre ++ ["❌ Public access failed: " ++ e], none)
  | Except.ok league =>
      (pre ++
        ["✅ League connected: " ++ leagueName league,
         "📈 Teams: " ++ toString (leagueTeams league).length,
         "🏆 Current week: " ++ leagueWeek league],
       some league)

/-- The two lines printed for one draft pick (source lines 60-66);
`i` is the zero-based loop index. -/
def pickLines (i : Nat) (p : Pick) : List String :=
  let ip := toString (i + 1)
  ["  Pick " ++ ip ++ ": Round " ++ pickRoundNum p ++
     ", Pick " ++ pickPickNum p,
   "           Team " ++ pickTeamId p ++ " → " ++ pickPlayerName p]

/-- The pick loop (source lines 59-69): `for i, pick in enumerate(picks[:10])`
with a `break` when `i >= 5` after printing, applied here to the already
sliced list. -/
def picksLoop : Nat → List Pick → List String
  | _, [] => []
  | i, p :: rest =>
      pickLines i p ++ (if 5 ≤ i then [] else picksLoop (i + 1) rest)

/-- Python truthiness of the `picks` value: `None` and `[]` are falsy. -/
def picksTruthy : Option (List Pick) → Bool
  | none => false
  | some l => !l.isEmpty

/-- `len(picks) if picks else 0` (source line 55). -/
def picksGuardedLen (pv : Option (List Pick)) : Nat :=
  if picksTruthy pv then (pv.getD []).length else 0

/-- `test_draft_access` (source lines 36-80): absent league prints a
message and returns; otherwise checks `hasattr(league, "draft")`, then
`hasattr(draft, "picks")`, then truthiness of `picks`, printing the
corresponding diagnostics and the bounded pick enumeration. -/
def test_draft_access (league : Option LeagueObj) : List String :=
  match league with
  | none => ["\n❌ No league to test draft access"]
  | some l =>
      ["\n🎯 TESTING DRAFT ACCESS", eqLine] ++
      match l.draft with
      | none =>
          ["❌ League has no \x27draft\x27 attribute",
           "📋 Available league attributes: " ++
             toString (l.dirAttrs.filter (fun a => !a.startsWith "_"))]
      | some d =>
          ["✅ League has draft attribute!",
           "📋 Draft object: " ++ d.typeName] ++
          match d.picks with
          | none =>
              ["❌ Draft object has no \x27picks\x27 attribute",
               "📋 Available draft attributes: " ++ toString d.dirAttrs]
          | some pv =>
              ["🎯 Total draft picks found: " ++
                 toString (picksGuardedLen pv)] ++
              if picksTruthy pv then
                ["\n📊 DRAFT PICKS DETECTED:"] ++
                  picksLoop 0 ((pv.getD []).take 10)
              else
                ["❌ No draft picks found in picks array"]

/-- The line printed for one roster player (source lines 107-110). -/
def playerLine (p : Player) : String :=
  "    - " ++ playerName p ++ " (" ++ playerPosition p ++ ")"

/-- Python truthiness of the `roster` value. -/
def rosterTruthy : Option (List Player) → Bool
  | none => false
  | some l => !l.isEmpty

/-- `len(roster) if roster else 0` (source line 104). -/
def rosterGuardedLen (rv : Option (List Player)) : Nat :=
  if rosterTruthy rv then (rv.getD []).length else 0

/-- The lines printed for one team in the roster probe (source lines
94-112): header, then either the roster size and the first three players,
or the "No roster attribute found" message. -/
def teamLines (t : Team) : List String :=
  ["\n🏈 Team " ++ teamId t ++ ": " ++ teamName t ++
     " (Owner: " ++ teamOwner t ++ ")"] ++
  match t.roster with
  | none => ["  ❌ No roster attribute found"]
  | some rv =>
      ["  📋 Roster size: " ++ toString (rosterGuardedLen rv)] ++
      if rosterTruthy rv then
        ((rv.getD []).take 3).map playerLine
      else
        []

/-- `test_teams_and_rosters` (source lines 82-115): absent league returns
silently; otherwise prints the banner and team count and inspects the
first three teams. -/
def test_teams_and_rosters (league : Option LeagueObj) : List String :=
  match league with
  | none => []
  | some l =>
      ["\n👥 TESTING TEAMS AND ROSTERS", eqLine,
       "📊 Found " ++ toString (leagueTeams l).length ++ " teams"] ++
      (((leagueTeams l).take 3).map teamLines).flatten

/-- The summary block of `main` (source lines 130-140). -/
def summary (league : Option LeagueObj) : List String :=
  ["\n🎯 SUMMARY:"] ++
  match league with
  | some _ =>
      ["✅ ESPN API library can connect to your league!",
       "🎯 This might be the solution for live draft monitoring!",
       "\n💡 Next steps:",
       "1. Add authentication cookies for private league access",
       "2. Test during active draft",
       "3. Integrate with Discord monitoring system"]
  | none =>
      ["❌ ESPN API library couldn\x27t connect to league",
       "💡 May need authentication cookies for private leagues"]

/-- `main` (source lines 117-140): runs the three probes in order and the
summary, threading the league handle obtained by the first probe. -/
def main (ctor : Except String LeagueObj) : List String :=
  ["🏈 ESPN API LIBRARY TEST",
   "Testing draft monitoring capabilities..."] ++
  (test_league_access ctor).1 ++
  test_draft_access (test_league_access ctor).2 ++
  test_teams_and_rosters (test_league_access ctor).2 ++
  summary (test_league_access ctor).2

/-- The whole process (source lines 6-11 and 142-143): the import guard,
then `main`.  Returns the printed lines and the exit code: `exit(1)` when
the import raises, implicit 0 otherwise. -/
def script (imp : Except String Unit) (ctor : Except String LeagueObj) :
    List String × Nat :=
  match imp with
  | Except.error e =>
      (["❌ Failed to import ESPN API: " ++ e], 1)
  | Except.ok _ =>
      (["✅ ESPN API library imported successfully!"] ++ main ctor, 0)

/-- Sample objects used by the witnesses. -/
def samplePick : Pick := ⟨some "Q", some "T1", some "1", some "1"⟩

def samplePicks : List Pick := List.replicate 8 samplePick

def sampleDraft : Draft :=
  ⟨some (some samplePicks), "<class Draft>", ["picks", "teams"]⟩

def samplePlayer : Player := ⟨some "J", some "QB"⟩

def sampleTeam : Team :=
  ⟨some "1", some "A", some "O", some (some (List.replicate 5 samplePlayer))⟩

def sampleLeague : LeagueObj :=
  ⟨some "L", some (List.replicate 4 sampleTeam), some "3",
   some sampleDraft, ["draft", "teams"]⟩

/-- Each printed pick contributes exactly two lines, and the loop stops
after index 5: starting at index `i ≤ 5` it prints `min l.length (6 - i)`
picks. -/
theorem picksLoop_length (l : List Pick) :
    ∀ i : Nat, i ≤ 5 → (picksLoop i l).length = 2 * min l.length (6 - i) := by
  induction l with
  | nil =>
      intro i _
      simp [picksLoop]
  | cons p rest ih =>
      intro i h
      by_cases h5 : 5 ≤ i
      · have hi : i = 5 := Nat.le_antisymm h h5
        subst hi
        simp [picksLoop, pickLines]
      · simp [picksLoop, pickLines, h5]
        rw [ih (i + 1) (by omega)]
        omega

/-- The block a single team contributes is at most five lines: the header,
the roster-size line (or the missing-roster line) and at most three
player lines. -/
theorem teamLines_length_le (t : Team) : (teamLines t).length ≤ 5 := by
  unfold teamLines
  match hr : t.roster with
  | none => simp
  | some rv =>
      simp only [List.length_append, List.length_cons, List.length_nil]
      by_cases ht : rosterTruthy rv
      · have : (((rv.getD []).take 3).map playerLine).length ≤ 3 := by
          rw [List.length_map, List.length_take]
          omega
        simp [ht]
        omega
      · simp [ht]

/-- A block of team blocks is at most five lines per team. -/
theorem teamBlocks_length_le (ts : List Team) :
    ((ts.map teamLines).flatten).length ≤ 5 * ts.length := by
  induction ts with
  | nil => simp
  | cons t rest ih =>
      simp only [List.map_cons, List.flatten_cons, List.length_append,
        List.length_cons]
      have := teamLines_length_le t
      omega

/-- C1: if `League(...)` raises any error, `test_league_access` catches
it, prints the failure message prefixed "Public access failed", and
returns `None` instead of propagating the exception. -/
theorem league_ctor_error_caught (e : String) :
    (test_league_access (Except.error e)).2 = none ∧
    ("❌ Public access failed: " ++ e) ∈ (test_league_access (Except.error e)).1 := by
  constructor
  · rfl
  · simp [test_league_access]

/-- C2 counterexample: with an absent league the roster probe prints
nothing at all, refuting that each subsequent probe prints a "no league"
message. -/
theorem roster_probe_silent_without_league :
    test_teams_and_rosters none = [] := rfl

/-- C2 (amended): with an absent league the draft probe prints exactly
the "No league to test draft access" message and the roster probe
returns silently, printing nothing; neither raises. -/
theorem no_league_probe_behaviour :
    test_draft_access none = ["\n❌ No league to test draft access"] ∧
    test_teams_and_rosters none = [] :=
  ⟨rfl, rfl⟩

/-- C3: with a draft and a nonempty picks list present, the probe prints
the total count and then the bounded enumeration; the number of picks
printed (two lines each) is exactly `min total 6`, hence never exceeds
the lesser of the total and either display limit. -/
theorem draft_picks_enumeration_bounded (l : LeagueObj) (d : Draft)
    (ps : List Pick) (hd : l.draft = some d) (hp : d.picks = some (some ps))
    (hne : ps ≠ []) :
    test_draft_access (some l) =
      ["\n🎯 TESTING DRAFT ACCESS", eqLine,
       "✅ League has draft attribute!",
       "📋 Draft object: " ++ d.typeName,
       "🎯 Total draft picks found: " ++ toString ps.length,
       "\n📊 DRAFT PICKS DETECTED:"] ++ picksLoop 0 (ps.take 10) ∧
    (picksLoop 0 (ps.take 10)).length = 2 * min ps.length 6 ∧
    min ps.length 6 ≤ min ps.length 10 := by
  have htr : picksTruthy (some ps) = true := by
    simp [picksTruthy, hne]
  refine ⟨?_, ?_, ?_⟩
  · simp [test_draft_access, hd, hp, htr, picksGuardedLen]
  · rw [picksLoop_length (ps.take 10) 0 (by omega), List.length_take]
    omega
  · omega

/-- C3 witness at a concrete league with eight picks. -/
theorem draft_picks_enumeration_bounded_witness :
    (picksLoop 0 (samplePicks.take 10)).length = 2 * min samplePicks.length 6 :=
  (draft_picks_enumeration_bounded sampleLeague sampleDraft samplePicks
    rfl rfl (by decide)).2.1

/-- C4: the roster probe output is bounded by eighteen lines no matter
how many teams or how large the rosters (three header lines, at most
three teams, at most five lines each), and a team whose roster attribute
holds a list of players contributes exactly `min roster 3` player
lines. -/
theorem roster_probe_bounded (l : LeagueObj) (t : Team) (ps : List Player)
    (h : t.roster = some (some ps)) :
    (test_teams_and_rosters (some l)).length ≤ 18 ∧
    (teamLines t).length = 2 + min ps.length 3 := by
  constructor
  · unfold test_teams_and_rosters
    have hb := teamBlocks_length_le ((leagueTeams l).take 3)
    have hlen : ((leagueTeams l).take 3).length ≤ 3 := by
      rw [List.length_take]; omega
    simp only [List.length_append, List.length_cons, List.length_nil]
    omega
  · unfold teamLines
    rw [h]
    by_cases he : ps = []
    · subst he
      simp [rosterTruthy]
    · have htr : rosterTruthy (some ps) = true := by
        simp [rosterTruthy, he]
      simp [htr]
      omega

/-- C4 witness at a concrete league of four teams with five-player
rosters. -/
theorem roster_probe_bounded_witness :
    (test_teams_and_rosters (some sampleLeague)).length ≤ 18 ∧
    (teamLines sampleTeam).length = 2 + min (List.replicate 5 samplePlayer).length 3 :=
  roster_probe_bounded sampleLeague sampleTeam (List.replicate 5 samplePlayer) rfl

/-- C5: every absent attribute renders as its placeholder string; the
lookups are total functions, so no exception can arise. -/
theorem missing_attributes_render_placeholders (l : LeagueObj) (pk : Pick)
    (t : Team) (pl : Player)
    (h1 : l.name = none) (h2 : l.current_week = none)
    (h3 : pk.player_name = none) (h4 : pk.team_id = none)
    (h5 : pk.round_num = none) (h6 : pk.pick_num = none)
    (h7 : t.team_id = none) (h8 : t.team_name = none) (h9 : t.owner = none)
    (h10 : pl.name = none) (h11 : pl.position = none) :
    leagueName l = "Unknown Name" ∧ leagueWeek l = "Unknown" ∧
    pickPlayerName pk = "Unknown Player" ∧ pickTeamId pk = "Unknown Team" ∧
    pickRoundNum pk = "Unknown Round" ∧ pickPickNum pk = "Unknown Pick" ∧
    teamId t = "Unknown" ∧ teamName t = "Unknown" ∧
    teamOwner t = "Unknown" ∧ playerName pl = "Unknown Player" ∧
    playerPosition pl = "Unknown Position" := by
  simp [leagueName, leagueWeek, pickPlayerName, pickTeamId, pickRoundNum,
    pickPickNum, teamId, teamName, teamOwner, playerName, playerPosition,
    h1, h2, h3, h4, h5, h6, h7, h8, h9, h10, h11]

/-- C5 witness at fully attribute-less objects. -/
theorem missing_attributes_render_placeholders_witness :
    leagueName ⟨none, none, none, none, []⟩ = "Unknown Name" ∧
    leagueWeek ⟨none, none, none, none, []⟩ = "Unknown" ∧
    pickPlayerName ⟨none, none, none, none⟩ = "Unknown Player" ∧
    pickTeamId ⟨none, none, none, none⟩ = "Unknown Team" ∧
    pickRoundNum ⟨none, none, none, none⟩ = "Unknown Round" ∧
    pickPickNum ⟨none, none, none, none⟩ = "Unknown Pick" ∧
    teamId ⟨none, none, none, none⟩ = "Unknown" ∧
    teamName ⟨none, none, none, none⟩ = "Unknown" ∧
    teamOwner ⟨none, none, none, none⟩ = "Unknown" ∧
    playerName ⟨none, none⟩ = "Unknown Player" ∧
    playerPosition ⟨none, none⟩ = "Unknown Position" :=
  missing_attributes_render_placeholders ⟨none, none, none, none, []⟩
    ⟨none, none, none, none⟩ ⟨none, none, none, none⟩ ⟨none, none⟩
    rfl rfl rfl rfl rfl rfl rfl rfl rfl rfl rfl

/-- C6: if the import raises, the script prints exactly the
import-failure message and exits with code 1, running no probe. -/
theorem import_failure_exits_one (e : String)
    (ctor : Except String LeagueObj) :
    script (Except.error e) ctor =
      (["❌ Failed to import ESPN API: " ++ e], 1) := rfl

/-- C7: the exit code is nonzero exactly on the import-failure path; in
every other run, whatever the league constructor does (including
raising), execution runs all three probes and ends in the summary with
exit code 0. -/
theorem exit_code_zero_unless_import_fails (imp : Except String Unit)
    (ctor : Except String LeagueObj) :
    ((script imp ctor).2 ≠ 0 ↔ ∃ e, imp = Except.error e) ∧
    (∀ u : Unit, imp = Except.ok u →
      (script imp ctor).2 = 0 ∧
      (script imp ctor).1 =
        ["✅ ESPN API library imported successfully!",
         "🏈 ESPN API LIBRARY TEST",
         "Testing draft monitoring capabilities..."] ++
        (test_league_access ctor).1 ++
        test_draft_access (test_league_access ctor).2 ++
        test_teams_and_rosters (test_league_access ctor).2 ++
        summary (test_league_access ctor).2) := by
  match imp with
  | Except.error e =>
      refine ⟨?_, ?_⟩
      · simp [script]
      · intro u hu
        cases hu
  | Except.ok u =>
      refine ⟨?_, ?_⟩
      · simp [script]
      · intro v _
        exact ⟨rfl, by simp [script, main]⟩

/-- C7 witness: library imports, league construction raises. -/
theorem exit_code_zero_unless_import_fails_witness :
    (script (Except.ok ()) (Except.error "x")).2 = 0 ∧
    (script (Except.ok ()) (Except.error "x")).1 =
      ["✅ ESPN API library imported successfully!",
       "🏈 ESPN API LIBRARY TEST",
       "Testing draft monitoring capabilities..."] ++
      (test_league_access (Except.error "x")).1 ++
      test_draft_access (test_league_access (Except.error "x")).2 ++
      test_teams_and_rosters (test_league_access (Except.error "x")).2 ++
      summary (test_league_access (Except.error "x")).2 :=
  (exit_code_zero_unless_import_fails (Except.ok ()) (Except.error "x")).2 () rfl

/-- C8: the draft probe checks the draft attribute first, then the picks
attribute: with no draft attribute it prints the "has no draft
attribute" message plus the public (non-underscore) league attributes;
with a draft but no picks attribute it prints the "no picks attribute"
message plus the full draft attribute list. -/
theorem draft_capability_checks (l l2 : LeagueObj) (d : Draft)
    (h1 : l.draft = none) (h2 : l2.draft = some d) (h3 : d.picks = none) :
    test_draft_access (some l) =
      ["\n🎯 TESTING DRAFT ACCESS", eqLine,
       "❌ League has no \x27draft\x27 attribute",
       "📋 Available league attributes: " ++
         toString (l.dirAttrs.filter (fun a => !a.startsWith "_"))] ∧
    test_draft_access (some l2) =
      ["\n🎯 TESTING DRAFT ACCESS", eqLine,
       "✅ League has draft attribute!",
       "📋 Draft object: " ++ d.typeName,
       "❌ Draft object has no \x27picks\x27 attribute",
       "📋 Available draft attributes: " ++ toString d.dirAttrs] := by
  constructor
  · simp [test_draft_access, h1]
  · simp [test_draft_access, h2, h3]

/-- C8 witness at a league without a draft attribute and one whose draft
object lacks picks. -/
theorem draft_capability_checks_witness :
    test_draft_access
        (some ⟨some "L", none, none, none, ["_priv", "teams", "year"]⟩) =
      ["\n🎯 TESTING DRAFT ACCESS", eqLine,
       "❌ League has no \x27draft\x27 attribute",
       "📋 Available league attributes: " ++
         toString ((["_priv", "teams", "year"] : List String).filter
           (fun a => !a.startsWith "_"))] ∧
    test_draft_access
        (some ⟨some "L", none, none,
          some ⟨none, "<class Draft>", ["a", "b"]⟩, []⟩) =
      ["\n🎯 TESTING DRAFT ACCESS", eqLine,
       "✅ League has draft attribute!",
       "📋 Draft object: <class Draft>",
       "❌ Draft object has no \x27picks\x27 attribute",
       "📋 Available draft attributes: " ++
         toString (["a", "b"] : List String)] :=
  draft_capability_checks
    ⟨some "L", none, none, none, ["_priv", "teams", "year"]⟩
    ⟨some "L", none, none, some ⟨none, "<class Draft>", ["a", "b"]⟩, []⟩
    ⟨none, "<class Draft>", ["a", "b"]⟩ rfl rfl rfl

/-- C9: the summary depends only on whether a league handle was obtained:
any handle yields the fixed success text and next-step list, absence
yields the fixed failure text. -/
theorem summary_depends_only_on_presence (l l2 : LeagueObj) :
    summary (some l) = summary (some l2) ∧
    summary (some l) =
      ["\n🎯 SUMMARY:",
       "✅ ESPN API library can connect to your league!",
       "🎯 This might be the solution for live draft monitoring!",
       "\n💡 Next steps:",
       "1. Add authentication cookies for private league access",
       "2. Test during active draft",
       "3. Integrate with Discord monitoring system"] ∧
    summary none =
      ["\n🎯 SUMMARY:",
       "❌ ESPN API library couldn\x27t connect to league",
       "💡 May need authentication cookies for private leagues"] :=
  ⟨rfl, rfl, rfl⟩

/-- C10: collection attributes present but falsy (`None` or empty) yield
a guarded count of 0, no iteration and no exception: the draft probe
prints "Total draft picks found: 0" and the "No draft picks found"
message for a `None` or empty picks value, and a team whose roster is
`None` or empty prints roster size 0 and no player lines. -/
theorem falsy_collections_print_zero (l l2 : LeagueObj) (d d2 : Draft)
    (t1 t2 : Team)
    (hd : l.draft = some d) (hp : d.picks = some none)
    (hd2 : l2.draft = some d2) (hp2 : d2.picks = some (some []))
    (h1 : t1.roster = some none) (h2 : t2.roster = some (some [])) :
    test_draft_access (some l) =
      ["\n🎯 TESTING DRAFT ACCESS", eqLine,
       "✅ League has draft attribute!",
       "📋 Draft object: " ++ d.typeName,
       "🎯 Total draft picks found: 0",
       "❌ No draft picks found in picks array"] ∧
    test_draft_access (some l2) =
      ["\n🎯 TESTING DRAFT ACCESS", eqLine,
       "✅ League has draft attribute!",
       "📋 Draft object: " ++ d2.typeName,
       "🎯 Total draft picks found: 0",
       "❌ No draft picks found in picks array"] ∧
    teamLines t1 =
      ["\n🏈 Team " ++ teamId t1 ++ ": " ++ teamName t1 ++
         " (Owner: " ++ teamOwner t1 ++ ")",
       "  📋 Roster size: 0"] ∧
    teamLines t2 =
      ["\n🏈 Team " ++ teamId t2 ++ ": " ++ teamName t2 ++
         " (Owner: " ++ teamOwner t2 ++ ")",
       "  📋 Roster size: 0"] := by
  have hz : toString (0 : Nat) = "0" := rfl
  refine ⟨?_, ?_, ?_, ?_⟩
  · simp [test_draft_access, hd, hp, picksTruthy, picksGuardedLen, hz]
  · simp [test_draft_access, hd2, hp2, picksTruthy, picksGuardedLen, hz]
  · simp [teamLines, h1, rosterTruthy, rosterGuardedLen, hz]
  · simp [teamLines, h2, rosterTruthy, rosterGuardedLen, hz]

/-- C10 witness at concrete falsy collections. -/
theorem falsy_collections_print_zero_witness :
    test_draft_access
        (some ⟨none, none, none, some ⟨some none, "D", []⟩, []⟩) =
      ["\n🎯 TESTING DRAFT ACCESS", eqLine,
       "✅ League has draft attribute!",
       "📋 Draft object: D",
       "🎯 Total draft picks found: 0",
       "❌ No draft picks found in picks array"] ∧
    test_draft_access
        (some ⟨none, none, none, some ⟨some (some []), "D2", []⟩, []⟩) =
      ["\n🎯 TESTING DRAFT ACCESS", eqLine,
       "✅ League has draft attribute!",
       "📋 Draft object: D2",
       "🎯 Total draft picks found: 0",
       "❌ No draft picks found in picks array"] ∧
    teamLines ⟨some "7", some "N", some "O", some none⟩ =
      ["\n🏈 Team 7: N (Owner: O)", "  📋 Roster size: 0"] ∧
    teamLines ⟨some "8", some "M", some "P", some (some [])⟩ =
      ["\n🏈 Team 8: M (Owner: P)", "  📋 Roster size: 0"] :=
  falsy_collections_print_zero
    ⟨none, none, none, some ⟨some none, "D", []⟩, []⟩
    ⟨none, none, none, some ⟨some (some []), "D2", []⟩, []⟩
    ⟨some none, "D", []⟩ ⟨some (some []), "D2", []⟩
    ⟨some "7", some "N", some "O", some none⟩
    ⟨some "8", some "M", some "P", some (some [])⟩
    rfl rfl rfl rfl rfl rfl

end EspnTest
